import Mathlib

/-!
Verification of the short-links service (src/main.rs) against its
natural-language specification.

The Redis store is shallowly embedded as an association list of hash records.
Each handler of src/main.rs is translated into a pure Lean function.  Since
every store operation in the source is an async network call that can fail,
each handler additionally takes a fault schedule (`List Bool`, one entry per
store call in program order, `true` = that call fails with a communication
error; a missing entry means success).  The random generator
(`rand::thread_rng` sampled through the `Alphanumeric` distribution) is
modelled by explicit entropy streams (`Nat → Char`) passed to the handlers.
Handlers return their Rust `Result` (success value or HTTP status code, plus
a `panic` case for `unwrap`/`expect`) together with the store as mutated by
the writes that succeeded before any failure.
-/

namespace ShortLinks

/-- Value held in one field of a Redis hash.  Redis stores every hash field
as a byte string; the fields that src/main.rs ever writes numerically
(`clicks`, via `hset(.., "clicks", 0)` and `hincr`) round-trip through the
decimal encoding, so those are kept as `Int` and the genuinely textual fields
(`url`, `token`) as `String`. -/
inductive Val where
  | vstr (s : String)
  | vint (n : Int)
deriving DecidableEq, Repr

/-- One Redis record: its hash fields and its TTL in seconds
(`none` = no expiry set). -/
structure Entry where
  fields : List (String × Val)
  ttl : Option Nat
deriving DecidableEq, Repr

/-- The key-value store: association list from short key to record. -/
abbrev Store := List (String × Entry)

/-- Record stored under key `k`, when present. -/
def lookupEntry : Store → String → Option Entry
  | [], _ => none
  | (k0, e) :: rest, k => if k0 = k then some e else lookupEntry rest k

/-- Redis EXISTS. -/
def existsKey (st : Store) (k : String) : Bool :=
  (lookupEntry st k).isSome

/-- Value of one field in a field list. -/
def getField : List (String × Val) → String → Option Val
  | [], _ => none
  | (f0, v) :: rest, f => if f0 = f then some v else getField rest f

/-- Field `field` of the record under `k`; `none` is the Redis nil reply
(key absent or field absent). -/
def hget (st : Store) (k field : String) : Option Val :=
  (lookupEntry st k).bind (fun e => getField e.fields field)

/-- Set one field in a field list, keeping the position of an existing field. -/
def setField (fs : List (String × Val)) (field : String) (v : Val) :
    List (String × Val) :=
  match fs with
  | [] => [(field, v)]
  | (f, w) :: rest =>
    if f == field then (f, v) :: rest else (f, w) :: setField rest field v

/-- Replace (or append) the record under `k`. -/
def setEntry (st : Store) (k : String) (e : Entry) : Store :=
  match st with
  | [] => [(k, e)]
  | (k0, e0) :: rest =>
    if k0 == k then (k0, e) :: rest else (k0, e0) :: setEntry rest k e

/-- Redis HSET of one field.  When the key is absent the record is created,
with no TTL (Redis creates hashes without expiry). -/
def hset (st : Store) (k field : String) (v : Val) : Store :=
  match lookupEntry st k with
  | none => setEntry st k { fields := [(field, v)], ttl := none }
  | some e => setEntry st k { e with fields := setField e.fields field v }

/-- Redis EXPIRE: sets the TTL of an existing key, does nothing otherwise
(the source discards the boolean reply). -/
def expire (st : Store) (k : String) (secs : Nat) : Store :=
  match lookupEntry st k with
  | none => st
  | some e => setEntry st k { e with ttl := some secs }

/-- Redis HINCRBY: an absent key or field counts as 0 (the key is created if
needed); a field holding a non-integer value is a WRONGTYPE-style error,
returned as `none`. -/
def hincr (st : Store) (k field : String) (delta : Int) : Option Store :=
  match hget st k field with
  | none => some (hset st k field (Val.vint delta))
  | some (Val.vint n) => some (hset st k field (Val.vint (n + delta)))
  | some (Val.vstr _) => none

/-- Decoding a Redis reply into a Rust `String` (redis-rs `FromRedisValue`):
the nil reply fails the conversion, string and integer replies succeed. -/
def valAsString : Option Val → Except Unit String
  | none => Except.error ()
  | some (Val.vstr s) => Except.ok s
  | some (Val.vint n) => Except.ok (toString n)

/-- Decoding a Redis reply into a Rust `usize`: nil fails, a negative value
fails.  A `vstr` field read as `usize` is also an error here; in the source
the only field read as `usize` is `clicks`, which is only ever written
numerically, so the `vstr` row is unreachable on the code paths. -/
def valAsUsize : Option Val → Except Unit Nat
  | none => Except.error ()
  | some (Val.vint n) => if n < 0 then Except.error () else Except.ok n.toNat
  | some (Val.vstr _) => Except.error ()

/-- Pop the next entry of a fault schedule; an exhausted schedule means the
remaining store calls all succeed. -/
def popFault : List Bool → Bool × List Bool
  | [] => (false, [])
  | b :: rest => (b, rest)

/-- rand_string from src/main.rs: takes `n` samples from the `Alphanumeric`
distribution.  The random source is the entropy stream `e`. -/
def rand_string (n : Nat) (e : Nat → Char) : String :=
  String.mk ((List.range n).map e)

/-- Outcome of an axum handler: the success value, an HTTP error status, or a
Rust panic (`unwrap` / `expect`). -/
inductive HResult (α : Type) where
  | ok (a : α)
  | err (status : Nat)
  | panic (msg : String)
deriving DecidableEq, Repr

/-- Loop body of generate_and_save_key (src/main.rs lines 81-100):
`remaining` counts the attempts left of the 3, `attempt` is the 0-based index
of the current attempt, used to draw that attempt's fresh randomness from
`kent`.  Returns the Rust `Result<String, String>` together with the store as
mutated so far and the unconsumed fault schedule.  Store calls in order per
attempt: EXISTS, then (when absent) HSET url, EXPIRE.  A faulted write is
modelled as not reaching the server. -/
def allocLoop (kent : Nat → Nat → Char) :
    Nat → Nat → List Bool → Store → Except String String × Store × List Bool
  | 0, _, faults, st =>
    (Except.error "Failed to generate a unique key after 3 attempts", st, faults)
  | remaining + 1, attempt, faults, st =>
    let short_key := rand_string 6 (kent attempt)
    let (f, faults) := popFault faults
    if f then (Except.error "Redis check error", st, faults)
    else if !existsKey st short_key then
      let (f, faults) := popFault faults
      if f then (Except.error "Redis hset error", st, faults)
      else
        let st := hset st short_key "url" (Val.vstr "")
        let (f, faults) := popFault faults
        if f then (Except.error "Redis expire error", st, faults)
        else (Except.ok short_key, expire st short_key (60 * 60 * 24 * 30), faults)
    else allocLoop kent remaining (attempt + 1) faults st

/-- generate_and_save_key from src/main.rs (lines 78-103). -/
def generate_and_save_key (kent : Nat → Nat → Char) (faults : List Bool)
    (st : Store) : Except String String × Store × List Bool :=
  allocLoop kent 3 0 faults st

/-- Body of POST /generate, as deserialized by serde. -/
structure CreateLinkRequest where
  url : String
deriving DecidableEq, Repr

/-- Response of POST /generate. -/
structure CreateLinkResponse where
  short_url : String
  stats_url : String
deriving DecidableEq, Repr

/-- generate_link from src/main.rs (lines 42-76).  `scheme?` models
`request.uri().scheme_str()`.  `body` models the two fallible body stages in
source order: the outer `Option` is the `to_bytes` read (`none` = read failed
or body over 10000 bytes, which the code `expect`s into a panic), the inner
`Option` the serde_json parse (`none` = malformed, which the code `unwrap`s
into a panic).  `auth_env` is `env::var("AUTH_TOKEN")`, `auth_header` the
`Authorization` header after `to_str().ok()` (so `none` covers a missing
header and one whose bytes are not valid visible ASCII).  `kent` feeds the
short-key candidates, `tent` the 24-character stats token.  Fault slots in
order: connection, then those of generate_and_save_key, then HSET url,
HSET token, HSET clicks. -/
def generate_link (auth_env : Option String) (auth_header : Option String)
    (scheme? : Option String) (hostname : String)
    (body : Option (Option CreateLinkRequest))
    (kent : Nat → Nat → Char) (tent : Nat → Char)
    (faults : List Bool) (st : Store) : HResult CreateLinkResponse × Store :=
  let scheme := scheme?.getD "http"
  match body with
  | none => (HResult.panic "Unable to read data", st)
  | some none => (HResult.panic "called Result::unwrap on an Err value", st)
  | some (some payload) =>
    match auth_env with
    | none => (HResult.err 401, st)
    | some auth_token =>
      match auth_header with
      | none => (HResult.err 401, st)
      | some req_auth_token =>
        if auth_token ≠ req_auth_token then (HResult.err 401, st)
        else
          let (f, faults) := popFault faults
          if f then (HResult.err 500, st)
          else
            match generate_and_save_key kent faults st with
            | (Except.error _, st, _) => (HResult.err 500, st)
            | (Except.ok short_key, st, faults) =>
              let token := rand_string 24 tent
              let short_url := scheme ++ "://" ++ hostname ++ "/" ++ short_key
              let stats_url := short_url ++ "/stats?token=" ++ token
              let (f, faults) := popFault faults
              if f then (HResult.err 500, st)
              else
                let st := hset st short_key "url" (Val.vstr payload.url)
                let (f, faults) := popFault faults
                if f then (HResult.err 500, st)
                else
                  let st := hset st short_key "token" (Val.vstr token)
                  let (f, _) := popFault faults
                  if f then (HResult.err 500, st)
                  else
                    let st := hset st short_key "clicks" (Val.vint 0)
                    (HResult.ok ⟨short_url, stats_url⟩, st)

/-- proxy_link from src/main.rs (lines 113-124).  On success the value is the
string handed to `Redirect::temporary` (the 307 target).  Fault slots in
order: connection (→ 500), HGET url (any failure, communication or nil,
→ 404 via `map_err`), HINCRBY clicks (→ 500). -/
def proxy_link (short_key : String) (faults : List Bool) (st : Store) :
    HResult String × Store :=
  let (f, faults) := popFault faults
  if f then (HResult.err 500, st)
  else
    let (f, faults) := popFault faults
    if f then (HResult.err 404, st)
    else
      match valAsString (hget st short_key "url") with
      | Except.error _ => (HResult.err 404, st)
      | Except.ok original_url =>
        let (f, _) := popFault faults
        if f then (HResult.err 500, st)
        else
          match hincr st short_key "clicks" 1 with
          | none => (HResult.err 500, st)
          | some st1 => (HResult.ok original_url, st1)

/-- get_stats from src/main.rs (lines 126-147).  `token?` is the parsed
`token` query parameter; the success value is the clicks count placed in the
JSON body.  Fault slots in order: connection (→ 500), HGET token (any
failure → 404), HGET clicks (→ 500). -/
def get_stats (short_key : String) (token? : Option String)
    (faults : List Bool) (st : Store) : HResult Nat × Store :=
  let (f, faults) := popFault faults
  if f then (HResult.err 500, st)
  else
    let (f, faults) := popFault faults
    if f then (HResult.err 404, st)
    else
      match valAsString (hget st short_key "token") with
      | Except.error _ => (HResult.err 404, st)
      | Except.ok stored_token =>
        match token? with
        | none => (HResult.err 404, st)
        | some token =>
          if token ≠ stored_token then (HResult.err 401, st)
          else
            let (f, _) := popFault faults
            if f then (HResult.err 500, st)
            else
              match valAsUsize (hget st short_key "clicks") with
              | Except.error _ => (HResult.err 500, st)
              | Except.ok clicks => (HResult.ok clicks, st)

/-- TTL currently set on key `k`. -/
def ttlOf (st : Store) (k : String) : Option Nat :=
  (lookupEntry st k).bind Entry.ttl

/-- Store effect of a successful reservation of `k` (the HSET url and EXPIRE
pair inside generate_and_save_key, lines 90-91). -/
def reserve (st : Store) (k : String) : Store :=
  expire (hset st k "url" (Val.vstr "")) k (60 * 60 * 24 * 30)

/-- Store effect of the three finalization writes of generate_link
(lines 68-70): HSET url, HSET token, HSET clicks = 0. -/
def finalizeStore (st : Store) (k url token : String) : Store :=
  hset (hset (hset st k "url" (Val.vstr url)) k "token" (Val.vstr token))
    k "clicks" (Val.vint 0)

/-- Store after `n` fault-free redirect requests for key `k`. -/
def redirectN (k : String) : Nat → Store → Store
  | 0, st => st
  | n + 1, st => redirectN k n (proxy_link k [] st).snd

/-! ## Store lemmas -/

theorem lookupEntry_setEntry_self (st : Store) (k : String) (e : Entry) :
    lookupEntry (setEntry st k e) k = some e := by
  induction st with
  | nil => simp [setEntry, lookupEntry]
  | cons p rest ih =>
    obtain ⟨k0, e0⟩ := p
    by_cases h : k0 = k
    · simp [setEntry, lookupEntry, h]
    · simp [setEntry, lookupEntry, h, ih]

theorem lookupEntry_setEntry_ne (st : Store) (k k' : String) (e : Entry)
    (h : k' ≠ k) : lookupEntry (setEntry st k e) k' = lookupEntry st k' := by
  induction st with
  | nil => simp [setEntry, lookupEntry, Ne.symm h]
  | cons p rest ih =>
    obtain ⟨k0, e0⟩ := p
    by_cases h0 : k0 = k
    · subst h0
      simp [setEntry, lookupEntry, Ne.symm h]
    · simp [setEntry, lookupEntry, h0, ih]

theorem getField_setField_self (fs : List (String × Val)) (f : String) (v : Val) :
    getField (setField fs f v) f = some v := by
  induction fs with
  | nil => simp [setField, getField]
  | cons p rest ih =>
    obtain ⟨f0, w⟩ := p
    by_cases h : f0 = f
    · simp [setField, getField, h]
    · simp [setField, getField, h, ih]

theorem getField_setField_ne (fs : List (String × Val)) (f f' : String) (v : Val)
    (h : f' ≠ f) : getField (setField fs f v) f' = getField fs f' := by
  induction fs with
  | nil => simp [setField, getField, Ne.symm h]
  | cons p rest ih =>
    obtain ⟨f0, w⟩ := p
    by_cases h0 : f0 = f
    · subst h0
      simp [setField, getField, Ne.symm h]
    · simp [setField, getField, h0, ih]

theorem hget_hset_self (st : Store) (k f : String) (v : Val) :
    hget (hset st k f v) k f = some v := by
  unfold hget hset
  cases hl : lookupEntry st k with
  | none => simp [lookupEntry_setEntry_self, getField]
  | some e => simp [lookupEntry_setEntry_self, getField_setField_self]

theorem hget_hset_ne_key (st : Store) (k k' f f' : String) (v : Val)
    (h : k' ≠ k) : hget (hset st k f v) k' f' = hget st k' f' := by
  unfold hget hset
  cases hl : lookupEntry st k with
  | none => simp [lookupEntry_setEntry_ne _ _ _ _ h]
  | some e => simp [lookupEntry_setEntry_ne _ _ _ _ h]

theorem hget_hset_ne_field (st : Store) (k f f' : String) (v : Val)
    (h : f' ≠ f) : hget (hset st k f v) k f' = hget st k f' := by
  unfold hget hset
  cases hl : lookupEntry st k with
  | none => simp [lookupEntry_setEntry_self, getField, List.find?, Ne.symm h, hl]
  | some e => simp [lookupEntry_setEntry_self, getField_setField_ne _ _ _ _ h, hl]

theorem lookupEntry_hset_ne (st : Store) (k k' f : String) (v : Val)
    (h : k' ≠ k) : lookupEntry (hset st k f v) k' = lookupEntry st k' := by
  unfold hset
  cases lookupEntry st k with
  | none => simp [lookupEntry_setEntry_ne _ _ _ _ h]
  | some e => simp [lookupEntry_setEntry_ne _ _ _ _ h]

theorem existsKey_hset_self (st : Store) (k f : String) (v : Val) :
    existsKey (hset st k f v) k = true := by
  unfold existsKey hset
  cases lookupEntry st k with
  | none => simp [lookupEntry_setEntry_self]
  | some e => simp [lookupEntry_setEntry_self]

theorem hget_expire (st : Store) (k : String) (s : Nat) (k' f : String) :
    hget (expire st k s) k' f = hget st k' f := by
  unfold hget expire
  cases hl : lookupEntry st k with
  | none => rfl
  | some e =>
    by_cases h : k' = k
    · subst h
      simp [lookupEntry_setEntry_self, hl]
    · simp [lookupEntry_setEntry_ne _ _ _ _ h]

theorem lookupEntry_expire_ne (st : Store) (k k' : String) (s : Nat)
    (h : k' ≠ k) : lookupEntry (expire st k s) k' = lookupEntry st k' := by
  unfold expire
  cases lookupEntry st k with
  | none => rfl
  | some e => simp [lookupEntry_setEntry_ne _ _ _ _ h]

theorem ttlOf_expire_self (st : Store) (k : String) (s : Nat)
    (h : existsKey st k = true) : ttlOf (expire st k s) k = some s := by
  unfold existsKey at h
  unfold ttlOf expire
  cases hl : lookupEntry st k with
  | none => rw [hl] at h; simp at h
  | some e => simp [lookupEntry_setEntry_self]

theorem ttlOf_hset_self (st : Store) (k f : String) (v : Val)
    (h : existsKey st k = true) : ttlOf (hset st k f v) k = ttlOf st k := by
  unfold existsKey at h
  unfold ttlOf hset
  cases hl : lookupEntry st k with
  | none => rw [hl] at h; simp at h
  | some e => simp [lookupEntry_setEntry_self, hl]

theorem ttlOf_hset_ne (st : Store) (k k' f : String) (v : Val)
    (h : k' ≠ k) : ttlOf (hset st k f v) k' = ttlOf st k' := by
  unfold ttlOf
  rw [lookupEntry_hset_ne _ _ _ _ _ h]

theorem hget_absent (st : Store) (k f : String)
    (h : lookupEntry st k = none) : hget st k f = none := by
  unfold hget
  rw [h]
  rfl

/-! ## Handler-level lemmas -/

theorem gask_first_free (kent : Nat → Nat → Char) (st : Store)
    (h : existsKey st (rand_string 6 (kent 0)) = false) :
    generate_and_save_key kent [] st =
      (Except.ok (rand_string 6 (kent 0)), reserve st (rand_string 6 (kent 0)), []) := by
  simp [generate_and_save_key, allocLoop, popFault, h, reserve]

theorem gask_second_free (kent : Nat → Nat → Char) (st : Store)
    (h0 : existsKey st (rand_string 6 (kent 0)) = true)
    (h1 : existsKey st (rand_string 6 (kent 1)) = false) :
    generate_and_save_key kent [] st =
      (Except.ok (rand_string 6 (kent 1)), reserve st (rand_string 6 (kent 1)), []) := by
  simp [generate_and_save_key, allocLoop, popFault, h0, h1, reserve]

theorem gask_third_free (kent : Nat → Nat → Char) (st : Store)
    (h0 : existsKey st (rand_string 6 (kent 0)) = true)
    (h1 : existsKey st (rand_string 6 (kent 1)) = true)
    (h2 : existsKey st (rand_string 6 (kent 2)) = false) :
    generate_and_save_key kent [] st =
      (Except.ok (rand_string 6 (kent 2)), reserve st (rand_string 6 (kent 2)), []) := by
  simp [generate_and_save_key, allocLoop, popFault, h0, h1, h2, reserve]

theorem gask_exhausted (kent : Nat → Nat → Char) (st : Store)
    (h0 : existsKey st (rand_string 6 (kent 0)) = true)
    (h1 : existsKey st (rand_string 6 (kent 1)) = true)
    (h2 : existsKey st (rand_string 6 (kent 2)) = true) :
    generate_and_save_key kent [] st =
      (Except.error "Failed to generate a unique key after 3 attempts", st, []) := by
  simp [generate_and_save_key, allocLoop, popFault, h0, h1, h2]

theorem rand_string_length (n : Nat) (e : Nat → Char) :
    (rand_string n e).length = n := by
  simp [rand_string, String.length]

theorem hget_reserve_url (st : Store) (k : String) :
    hget (reserve st k) k "url" = some (Val.vstr "") := by
  unfold reserve
  rw [hget_expire, hget_hset_self]

theorem ttlOf_reserve (st : Store) (k : String) :
    ttlOf (reserve st k) k = some 2592000 := by
  unfold reserve
  rw [ttlOf_expire_self _ _ _ (existsKey_hset_self st k "url" (Val.vstr ""))]

theorem generate_link_success (auth : String) (scheme? : Option String)
    (hostname : String) (payload : CreateLinkRequest)
    (kent : Nat → Nat → Char) (tent : Nat → Char) (st : Store)
    (h : existsKey st (rand_string 6 (kent 0)) = false) :
    generate_link (some auth) (some auth) scheme? hostname
        (some (some payload)) kent tent [] st =
      (HResult.ok
        ⟨scheme?.getD "http" ++ "://" ++ hostname ++ "/" ++ rand_string 6 (kent 0),
         scheme?.getD "http" ++ "://" ++ hostname ++ "/" ++ rand_string 6 (kent 0)
           ++ "/stats?token=" ++ rand_string 24 tent⟩,
       finalizeStore (reserve st (rand_string 6 (kent 0))) (rand_string 6 (kent 0))
         payload.url (rand_string 24 tent)) := by
  simp [generate_link, popFault, gask_first_free kent st h, finalizeStore]

theorem proxy_link_step (st : Store) (k u : String) (c : Int)
    (hu : hget st k "url" = some (Val.vstr u))
    (hc : hget st k "clicks" = some (Val.vint c)) :
    proxy_link k [] st = (HResult.ok u, hset st k "clicks" (Val.vint (c + 1))) := by
  simp [proxy_link, popFault, valAsString, hu, hincr, hc]

theorem proxy_link_step_reserved (st : Store) (k u : String)
    (hu : hget st k "url" = some (Val.vstr u))
    (hc : hget st k "clicks" = none) :
    proxy_link k [] st = (HResult.ok u, hset st k "clicks" (Val.vint 1)) := by
  simp [proxy_link, popFault, valAsString, hu, hincr, hc]

theorem redirectN_spec (k u : String) :
    ∀ (n : Nat) (st : Store) (c : Int),
      hget st k "url" = some (Val.vstr u) →
      hget st k "clicks" = some (Val.vint c) →
      hget (redirectN k n st) k "url" = some (Val.vstr u) ∧
      hget (redirectN k n st) k "clicks" = some (Val.vint (c + n)) := by
  intro n
  induction n with
  | zero =>
    intro st c hu hc
    simpa [redirectN] using ⟨hu, hc⟩
  | succ n ih =>
    intro st c hu hc
    have hstep := proxy_link_step st k u c hu hc
    have hu2 : hget (hset st k "clicks" (Val.vint (c + 1))) k "url"
        = some (Val.vstr u) := by
      rw [hget_hset_ne_field _ _ _ _ _ (by decide)]
      exact hu
    have hc2 := hget_hset_self st k "clicks" (Val.vint (c + 1))
    have hrec := ih (hset st k "clicks" (Val.vint (c + 1))) (c + 1) hu2 hc2
    have harith : c + 1 + (n : Int) = c + ((n : Nat) + 1 : Nat) := by
      push_cast
      ring
    rw [harith] at hrec
    simpa [redirectN, hstep] using hrec

theorem generate_link_parsed_no_panic (auth_env auth_header scheme? : Option String)
    (hostname : String) (payload : CreateLinkRequest)
    (kent : Nat → Nat → Char) (tent : Nat → Char)
    (faults : List Bool) (st : Store) (msg : String) :
    (generate_link auth_env auth_header scheme? hostname (some (some payload))
        kent tent faults st).fst ≠ HResult.panic msg := by
  unfold generate_link
  cases auth_env with
  | none => simp
  | some a =>
    cases auth_header with
    | none => simp
    | some b =>
      by_cases hab : a ≠ b
      · simp [hab]
      · rcases h1 : popFault faults with ⟨f1, fs1⟩
        cases f1
        · rcases h2 : generate_and_save_key kent fs1 st with ⟨r, st2, fs2⟩
          cases r with
          | error e => simp [hab, h1, h2]
          | ok key =>
            rcases h3 : popFault fs2 with ⟨f3, fs3⟩
            cases f3
            · rcases h4 : popFault fs3 with ⟨f4, fs4⟩
              cases f4
              · rcases h5 : popFault fs4 with ⟨f5, fs5⟩
                cases f5 <;> simp [hab, h1, h2, h3, h4, h5]
              · simp [hab, h1, h2, h3, h4]
            · simp [hab, h1, h2, h3]
        · simp [hab, h1]

theorem gask_first_free_sched (kent : Nat → Nat → Char) (st : Store)
    (rest : List Bool)
    (h : existsKey st (rand_string 6 (kent 0)) = false) :
    generate_and_save_key kent (false :: false :: false :: rest) st =
      (Except.ok (rand_string 6 (kent 0)), reserve st (rand_string 6 (kent 0)),
       rest) := by
  simp [generate_and_save_key, allocLoop, popFault, h, reserve]

theorem existsKey_false_lookup (st : Store) (k : String)
    (h : existsKey st k = false) : lookupEntry st k = none := by
  unfold existsKey at h
  cases hl : lookupEntry st k with
  | none => rfl
  | some e => rw [hl] at h; simp at h

theorem existsKey_expire (st : Store) (k : String) (s : Nat) (k' : String) :
    existsKey (expire st k s) k' = existsKey st k' := by
  unfold existsKey expire
  cases hl : lookupEntry st k with
  | none => rfl
  | some e =>
    by_cases h : k' = k
    · subst h
      simp [lookupEntry_setEntry_self, hl]
    · simp [lookupEntry_setEntry_ne _ _ _ _ h]

/-! ## Claim theorems -/

/-- C1: generate_and_save_key loops for at most 3 attempts; each attempt
draws a fresh 6-character candidate and checks its existence in the store; an
absent candidate is reserved (its url field set to the empty string, a
2,592,000-second TTL set on it) and returned as the success result; an
existing candidate triggers a retry with fresh randomness; and when all 3
attempts hit existing keys the call fails with the allocation-exhausted
error.  Stated for a fault-free store schedule. -/
theorem claim_C1_allocation_algorithm (kent : Nat → Nat → Char) (st : Store) :
    ((rand_string 6 (kent 0)).length = 6 ∧ (rand_string 6 (kent 1)).length = 6 ∧
      (rand_string 6 (kent 2)).length = 6) ∧
    (∀ k, hget (reserve st k) k "url" = some (Val.vstr "") ∧
      ttlOf (reserve st k) k = some 2592000) ∧
    (existsKey st (rand_string 6 (kent 0)) = false →
      generate_and_save_key kent [] st =
        (Except.ok (rand_string 6 (kent 0)), reserve st (rand_string 6 (kent 0)), [])) ∧
    (existsKey st (rand_string 6 (kent 0)) = true →
      existsKey st (rand_string 6 (kent 1)) = false →
      generate_and_save_key kent [] st =
        (Except.ok (rand_string 6 (kent 1)), reserve st (rand_string 6 (kent 1)), [])) ∧
    (existsKey st (rand_string 6 (kent 0)) = true →
      existsKey st (rand_string 6 (kent 1)) = true →
      existsKey st (rand_string 6 (kent 2)) = false →
      generate_and_save_key kent [] st =
        (Except.ok (rand_string 6 (kent 2)), reserve st (rand_string 6 (kent 2)), [])) ∧
    (existsKey st (rand_string 6 (kent 0)) = true →
      existsKey st (rand_string 6 (kent 1)) = true →
      existsKey st (rand_string 6 (kent 2)) = true →
      generate_and_save_key kent [] st =
        (Except.error "Failed to generate a unique key after 3 attempts", st, [])) :=
  ⟨⟨rand_string_length 6 (kent 0), rand_string_length 6 (kent 1),
      rand_string_length 6 (kent 2)⟩,
    fun k => ⟨hget_reserve_url st k, ttlOf_reserve st k⟩,
    gask_first_free kent st, gask_second_free kent st,
    gask_third_free kent st, gask_exhausted kent st⟩

/-- Witness for C1: on the empty store the first candidate of the constant
entropy stream is free and gets reserved. -/
theorem claim_C1_allocation_algorithm_witness :
    generate_and_save_key (fun i _ => Char.ofNat (97 + i)) [] [] =
      (Except.ok (rand_string 6 ((fun (i : Nat) (_ : Nat) => Char.ofNat (97 + i)) 0)),
       reserve [] (rand_string 6 ((fun (i : Nat) (_ : Nat) => Char.ofNat (97 + i)) 0)),
       []) :=
  (claim_C1_allocation_algorithm (fun i _ => Char.ofNat (97 + i)) []).2.2.1 rfl

/-- C2: a record finalized by generate_link has its clicks counter
initialized to exactly 0; each successful fault-free redirect through
proxy_link increments the stored counter by exactly 1; hence starting from a
finalized record, after N successful redirects and no other operations the
stored clicks value equals N (and each of those N redirects did succeed). -/
theorem claim_C2_clicks_counter (auth : String) (scheme? : Option String)
    (hostname : String) (payload : CreateLinkRequest)
    (kent : Nat → Nat → Char) (tent : Nat → Char) (st : Store)
    (k u : String) (n : Nat) :
    (existsKey st (rand_string 6 (kent 0)) = false →
      hget (generate_link (some auth) (some auth) scheme? hostname
          (some (some payload)) kent tent [] st).snd
        (rand_string 6 (kent 0)) "clicks" = some (Val.vint 0)) ∧
    (∀ c : Int, hget st k "url" = some (Val.vstr u) →
      hget st k "clicks" = some (Val.vint c) →
      proxy_link k [] st = (HResult.ok u, hset st k "clicks" (Val.vint (c + 1))) ∧
      hget (proxy_link k [] st).snd k "clicks" = some (Val.vint (c + 1))) ∧
    (hget st k "url" = some (Val.vstr u) →
      hget st k "clicks" = some (Val.vint 0) →
      hget (redirectN k n st) k "clicks" = some (Val.vint n) ∧
      (∀ i, (proxy_link k [] (redirectN k i st)).fst = HResult.ok u)) := by
  refine ⟨?_, ?_, ?_⟩
  · intro h
    rw [generate_link_success auth scheme? hostname payload kent tent st h]
    exact hget_hset_self _ _ _ _
  · intro c hu hc
    refine ⟨proxy_link_step st k u c hu hc, ?_⟩
    rw [proxy_link_step st k u c hu hc]
    exact hget_hset_self _ _ _ _
  · intro hu hc
    constructor
    · have h := (redirectN_spec k u n st 0 hu hc).2
      simpa using h
    · intro i
      have h := redirectN_spec k u i st 0 hu hc
      rw [proxy_link_step _ k u _ h.1 h.2]

/-- Witness for C2: one finalized record, three redirects, counter 3. -/
theorem claim_C2_clicks_counter_witness :
    hget (redirectN "k1" 3 [("k1", Entry.mk [("url", Val.vstr "https://e.com"),
        ("token", Val.vstr "t"), ("clicks", Val.vint 0)] (some 2592000))])
      "k1" "clicks" = some (Val.vint 3) :=
  ((claim_C2_clicks_counter "a" none "h" ⟨"u"⟩ (fun _ _ => 'a') (fun _ => 'a')
      [("k1", Entry.mk [("url", Val.vstr "https://e.com"), ("token", Val.vstr "t"),
        ("clicks", Val.vint 0)] (some 2592000))]
      "k1" "https://e.com" 3).2.2 rfl rfl).1

/-- C3: get_stats with a fault-free store schedule implements the specified
authorization protocol: an absent key fails with 404; an existing key with no
token query parameter fails with 404 with exactly the same observable outcome
as the key-absent case; a supplied token differing from the stored token (by
string equality) fails with 401; and a supplied token equal to the stored one
returns the stored clicks count. -/
theorem claim_C3_get_stats_auth (st : Store) (k : String)
    (token? : Option String) (tok t : String) (n : Nat) :
    (lookupEntry st k = none → get_stats k token? [] st = (HResult.err 404, st)) ∧
    (hget st k "token" = some (Val.vstr tok) →
      (token? = none → get_stats k token? [] st = (HResult.err 404, st)) ∧
      (token? = some t → t ≠ tok → get_stats k token? [] st = (HResult.err 401, st)) ∧
      (hget st k "clicks" = some (Val.vint (n : Int)) →
        get_stats k (some tok) [] st = (HResult.ok n, st))) := by
  refine ⟨?_, ?_⟩
  · intro h
    have hn := hget_absent st k "token" h
    simp [get_stats, popFault, hn, valAsString]
  · intro htok
    refine ⟨?_, ?_, ?_⟩
    · intro hp
      subst hp
      simp [get_stats, popFault, htok, valAsString]
    · intro hp hne
      subst hp
      simp [get_stats, popFault, htok, valAsString, hne]
    · intro hc
      have hnn : ¬((n : Int) < 0) := by omega
      simp [get_stats, popFault, htok, valAsString, hc, valAsUsize, hnn]

/-- Witness for C3: correct token on an active record returns its clicks. -/
theorem claim_C3_get_stats_auth_witness :
    get_stats "k1" (some "tk") []
        [("k1", Entry.mk [("url", Val.vstr "u"), ("token", Val.vstr "tk"),
          ("clicks", Val.vint 7)] (some 9))] =
      (HResult.ok 7, [("k1", Entry.mk [("url", Val.vstr "u"),
        ("token", Val.vstr "tk"), ("clicks", Val.vint 7)] (some 9))]) :=
  ((claim_C3_get_stats_auth
      [("k1", Entry.mk [("url", Val.vstr "u"), ("token", Val.vstr "tk"),
        ("clicks", Val.vint 7)] (some 9))]
      "k1" (some "tk") "tk" "x" 7).2 rfl).2.2 rfl

/-- C4 counterexample: the key exists in the store, yet a communication
failure on the url read makes proxy_link return 404 — so "404 if and only if
the requested key does not exist" is false. -/
theorem claim_C4_counterexample :
    existsKey [("abc123", Entry.mk [("url", Val.vstr "https://example.com")]
      (some 2592000))] "abc123" = true ∧
    (proxy_link "abc123" [false, true]
      [("abc123", Entry.mk [("url", Val.vstr "https://example.com")]
        (some 2592000))]).fst = HResult.err 404 :=
  ⟨rfl, rfl⟩

/-- C4 (amended): with a fault-free store schedule, proxy_link fails with 404
exactly when the url read returns the nil reply — in particular an absent key
yields 404 — but a store communication failure during the url read is also
surfaced as 404, not 500, so the 404 outcome does not imply that the key is
absent.  On success the stored url value is returned unchanged as the
redirect target, and a failure of the clicks increment fails the whole
request with 500, distinct from the not-found case. -/
theorem claim_C4_proxy_link_errors (st : Store) (k u : String) :
    ((proxy_link k [] st).fst = HResult.err 404 ↔ hget st k "url" = none) ∧
    (lookupEntry st k = none → proxy_link k [] st = (HResult.err 404, st)) ∧
    (hget st k "url" = some (Val.vstr u) →
      (hget st k "clicks" = none ∨ ∃ c : Int, hget st k "clicks" = some (Val.vint c)) →
      (proxy_link k [] st).fst = HResult.ok u) ∧
    (proxy_link k [false, true] st = (HResult.err 404, st)) ∧
    (hget st k "url" = some (Val.vstr u) →
      proxy_link k [false, false, true] st = (HResult.err 500, st)) := by
  refine ⟨⟨?_, ?_⟩, ?_, ?_, ?_, ?_⟩
  · intro h404
    cases hu : hget st k "url" with
    | none => rfl
    | some v =>
      exfalso
      cases v with
      | vstr s =>
        rcases hi : hincr st k "clicks" 1 with _ | st2 <;>
          simp [proxy_link, popFault, hu, valAsString, hi] at h404
      | vint m =>
        rcases hi : hincr st k "clicks" 1 with _ | st2 <;>
          simp [proxy_link, popFault, hu, valAsString, hi] at h404
  · intro hnone
    simp [proxy_link, popFault, hnone, valAsString]
  · intro h
    simp [proxy_link, popFault, hget_absent st k "url" h, valAsString]
  · intro hu hcl
    rcases hcl with hc | ⟨c, hc⟩
    · rw [proxy_link_step_reserved st k u hu hc]
    · rw [proxy_link_step st k u c hu hc]
  · rfl
  · intro hu
    simp [proxy_link, popFault, hu, valAsString]

/-- Witness for C4 (amended): an active record redirects to its stored url. -/
theorem claim_C4_proxy_link_errors_witness :
    (proxy_link "k1" [] [("k1", Entry.mk [("url", Val.vstr "https://e.com"),
      ("clicks", Val.vint 0)] (some 9))]).fst = HResult.ok "https://e.com" :=
  (claim_C4_proxy_link_errors [("k1", Entry.mk [("url", Val.vstr "https://e.com"),
      ("clicks", Val.vint 0)] (some 9))] "k1" "https://e.com").2.2.1 rfl
    (Or.inr ⟨0, rfl⟩)

/-- C5 counterexample: an I/O failure on the url read in proxy_link (and on
the token read in get_stats) is surfaced as 404, not 500, refuting "every I/O
failure talking to the backing store is surfaced as StoreUnavailable (500),
never as NotFound (404)". -/
theorem claim_C5_counterexample :
    (proxy_link "k1" [false, true]
      [("k1", Entry.mk [("url", Val.vstr "u")] (some 9))]).fst = HResult.err 404 ∧
    (proxy_link "k1" [false, true]
      [("k1", Entry.mk [("url", Val.vstr "u")] (some 9))]).fst ≠ HResult.err 500 ∧
    (get_stats "k1" (some "t") [false, true]
      [("k1", Entry.mk [("url", Val.vstr "u"), ("token", Val.vstr "t")]
        (some 9))]).fst = HResult.err 404 :=
  ⟨rfl, by decide, rfl⟩

/-- C5 (amended): every store I/O failure is surfaced as 500 — the connection
setup in all three handlers, the EXISTS check, the reservation HSET and the
EXPIRE of the allocation loop, each of the three finalize writes of
generate_link, the clicks increment of proxy_link and the clicks read of
get_stats — except that a failure of the url read in proxy_link or of the
token read in get_stats (communication errors included) is surfaced as 404,
indistinguishable from an absent key. -/
theorem claim_C5_store_failure_mapping (st : Store) (k u tok : String)
    (token? : Option String) (auth : String) (scheme? : Option String)
    (hostname : String) (payload : CreateLinkRequest)
    (kent : Nat → Nat → Char) (tent : Nat → Char) (rest : List Bool) :
    (proxy_link k [true] st = (HResult.err 500, st)) ∧
    (get_stats k token? [true] st = (HResult.err 500, st)) ∧
    (proxy_link k [false, true] st = (HResult.err 404, st)) ∧
    (get_stats k token? [false, true] st = (HResult.err 404, st)) ∧
    (hget st k "url" = some (Val.vstr u) →
      proxy_link k [false, false, true] st = (HResult.err 500, st)) ∧
    (hget st k "token" = some (Val.vstr tok) →
      get_stats k (some tok) [false, false, true] st = (HResult.err 500, st)) ∧
    ((generate_link (some auth) (some auth) scheme? hostname
        (some (some payload)) kent tent (true :: rest) st).fst
      = HResult.err 500) ∧
    ((generate_link (some auth) (some auth) scheme? hostname
        (some (some payload)) kent tent (false :: true :: rest) st).fst
      = HResult.err 500) ∧
    (existsKey st (rand_string 6 (kent 0)) = false →
      (generate_link (some auth) (some auth) scheme? hostname
          (some (some payload)) kent tent (false :: false :: true :: rest) st).fst
        = HResult.err 500) ∧
    (existsKey st (rand_string 6 (kent 0)) = false →
      (generate_link (some auth) (some auth) scheme? hostname
          (some (some payload)) kent tent
          (false :: false :: false :: true :: rest) st).fst
        = HResult.err 500) ∧
    (existsKey st (rand_string 6 (kent 0)) = false →
      (generate_link (some auth) (some auth) scheme? hostname
          (some (some payload)) kent tent
          (false :: false :: false :: false :: true :: rest) st).fst
        = HResult.err 500) ∧
    (existsKey st (rand_string 6 (kent 0)) = false →
      (generate_link (some auth) (some auth) scheme? hostname
          (some (some payload)) kent tent
          (false :: false :: false :: false :: false :: true :: rest) st).fst
        = HResult.err 500) ∧
    (existsKey st (rand_string 6 (kent 0)) = false →
      (generate_link (some auth) (some auth) scheme? hostname
          (some (some payload)) kent tent
          (false :: false :: false :: false :: false :: false :: true :: rest)
          st).fst
        = HResult.err 500) := by
  refine ⟨rfl, rfl, rfl, rfl, ?_, ?_, ?_, ?_, ?_, ?_, ?_, ?_, ?_⟩
  · intro hu
    simp [proxy_link, popFault, hu, valAsString]
  · intro htok
    simp [get_stats, popFault, htok, valAsString]
  · simp [generate_link, popFault]
  · simp [generate_link, popFault, generate_and_save_key, allocLoop]
  · intro h
    simp [generate_link, popFault, generate_and_save_key, allocLoop, h]
  · intro h
    simp [generate_link, popFault, generate_and_save_key, allocLoop, h]
  · intro h
    simp [generate_link, popFault, gask_first_free_sched kent st _ h]
  · intro h
    simp [generate_link, popFault, gask_first_free_sched kent st _ h]
  · intro h
    simp [generate_link, popFault, gask_first_free_sched kent st _ h]

/-- Witness for C5 (amended): increment failure on an active record is 500. -/
theorem claim_C5_store_failure_mapping_witness :
    proxy_link "k1" [false, false, true]
        [("k1", Entry.mk [("url", Val.vstr "u")] (some 9))] =
      (HResult.err 500, [("k1", Entry.mk [("url", Val.vstr "u")] (some 9))]) :=
  (claim_C5_store_failure_mapping
    [("k1", Entry.mk [("url", Val.vstr "u")] (some 9))]
    "k1" "u" "t" none "a" none "h" ⟨"u"⟩ (fun _ _ => 'a') (fun _ => 'a')
    []).2.2.2.2.1 rfl

/-- C6 counterexample: with the AUTH_TOKEN environment variable absent, a
request whose body is malformed panics instead of returning 401 — the body is
read and parsed before the auth check — refuting "when the creation-auth
secret is absent from the environment, /generate returns 401 for every
request". -/
theorem claim_C6_counterexample :
    (generate_link none (some "t") none "h" (some none)
      (fun _ _ => 'a') (fun _ => 'a') [] []).fst
        = HResult.panic "called Result::unwrap on an Err value" ∧
    (generate_link none (some "t") none "h" (some none)
      (fun _ _ => 'a') (fun _ => 'a') [] []).fst ≠ HResult.err 401 :=
  ⟨rfl, by decide⟩

/-- C6 (amended): for every /generate request whose body is successfully read
and parsed, generate_link succeeds only if the Authorization header is
present and exactly equals the AUTH_TOKEN secret; a missing or mismatched
header yields 401; and when the secret is absent from the environment every
such request yields 401.  (Requests with unreadable or unparseable bodies
panic before the auth check, so the 401 guarantees do not extend to them.) -/
theorem claim_C6_generate_auth (auth_env auth_header scheme? : Option String)
    (hostname : String) (payload : CreateLinkRequest)
    (kent : Nat → Nat → Char) (tent : Nat → Char)
    (faults : List Bool) (st : Store) :
    (∀ resp, (generate_link auth_env auth_header scheme? hostname
        (some (some payload)) kent tent faults st).fst = HResult.ok resp →
      auth_env ≠ none ∧ auth_header = auth_env) ∧
    (auth_env = none →
      (generate_link auth_env auth_header scheme? hostname
        (some (some payload)) kent tent faults st).fst = HResult.err 401) ∧
    (auth_header = none →
      (generate_link auth_env auth_header scheme? hostname
        (some (some payload)) kent tent faults st).fst = HResult.err 401) ∧
    (∀ a b, auth_env = some a → auth_header = some b → a ≠ b →
      (generate_link auth_env auth_header scheme? hostname
        (some (some payload)) kent tent faults st).fst = HResult.err 401) := by
  have henv : auth_env = none →
      (generate_link auth_env auth_header scheme? hostname
        (some (some payload)) kent tent faults st).fst = HResult.err 401 := by
    intro h
    subst h
    rfl
  have hhdr : auth_header = none →
      (generate_link auth_env auth_header scheme? hostname
        (some (some payload)) kent tent faults st).fst = HResult.err 401 := by
    intro h
    subst h
    cases auth_env <;> rfl
  have hmis : ∀ a b, auth_env = some a → auth_header = some b → a ≠ b →
      (generate_link auth_env auth_header scheme? hostname
        (some (some payload)) kent tent faults st).fst = HResult.err 401 := by
    intro a b ha hb hne
    subst ha
    subst hb
    simp [generate_link, hne]
  refine ⟨?_, henv, hhdr, hmis⟩
  intro resp hok
  cases ha : auth_env with
  | none =>
    rw [henv ha] at hok
    simp at hok
  | some a =>
    cases hb : auth_header with
    | none =>
      rw [hhdr hb] at hok
      simp at hok
    | some b =>
      by_cases hab : a = b
      · subst hab
        simp [ha, hb]
      · rw [hmis a b ha hb hab] at hok
        simp at hok

/-- Witness for C6 (amended): a mismatched Authorization header is 401. -/
theorem claim_C6_generate_auth_witness :
    (generate_link (some "secret") (some "wrong") none "h"
      (some (some ⟨"u"⟩)) (fun _ _ => 'a') (fun _ => 'a') [] []).fst
        = HResult.err 401 :=
  (claim_C6_generate_auth (some "secret") (some "wrong") none "h" ⟨"u"⟩
    (fun _ _ => 'a') (fun _ => 'a') [] []).2.2.2 "secret" "wrong" rfl rfl
    (by decide)

/-- C7 counterexample: a request body that does not parse as the expected
JSON shape makes generate_link panic (Rust `unwrap`), not return status 500 —
refuting "fails with status 500; the body-read and JSON-parse branches never
panic". -/
theorem claim_C7_counterexample :
    (generate_link (some "s") (some "s") none "h" (some none)
      (fun _ _ => 'a') (fun _ => 'a') [] []).fst
        = HResult.panic "called Result::unwrap on an Err value" ∧
    (generate_link (some "s") (some "s") none "h" (some none)
      (fun _ _ => 'a') (fun _ => 'a') [] []).fst ≠ HResult.err 500 :=
  ⟨rfl, by decide⟩

/-- C7 (amended): generate_link is not total over request bodies: a body that
fails to read (or exceeds the 10000-byte limit) panics with "Unable to read
data", and a body that reads but fails to parse as JSON panics in `unwrap`;
neither is mapped to a status code.  Over successfully parsed bodies the
handler never panics: every outcome is a success or an HTTP status. -/
theorem claim_C7_body_panics (auth_env auth_header scheme? : Option String)
    (hostname : String) (payload : CreateLinkRequest)
    (kent : Nat → Nat → Char) (tent : Nat → Char)
    (faults : List Bool) (st : Store) (msg : String) :
    (generate_link auth_env auth_header scheme? hostname none kent tent faults st
      = (HResult.panic "Unable to read data", st)) ∧
    (generate_link auth_env auth_header scheme? hostname (some none) kent tent
        faults st
      = (HResult.panic "called Result::unwrap on an Err value", st)) ∧
    ((generate_link auth_env auth_header scheme? hostname (some (some payload))
        kent tent faults st).fst ≠ HResult.panic msg) :=
  ⟨rfl, rfl, generate_link_parsed_no_panic auth_env auth_header scheme? hostname
    payload kent tent faults st msg⟩

/-- Witness for C7 (amended): an unreadable body panics with the expect
message. -/
theorem claim_C7_body_panics_witness :
    generate_link (some "s") (some "s") none "h" none
        (fun _ _ => 'a') (fun _ => 'a') [] [] =
      (HResult.panic "Unable to read data", []) :=
  (claim_C7_body_panics (some "s") (some "s") none "h" ⟨"u"⟩
    (fun _ _ => 'a') (fun _ => 'a') [] [] "m").1

/-- C8: finalization (the three HSETs of generate_link on the reserved key)
writes exactly the url, token and clicks fields as three independent field
writes and leaves everything else unchanged: other fields of the record keep
their values, other keys are untouched, and the TTL set at reservation is not
reset (it remains the reservation's 2,592,000 seconds).  On a write failure
partial writes are possible and are not rolled back: with a fault on the
token write, the whole request fails with 500 while the url field of the
record is already overwritten and the token field still absent. -/
theorem claim_C8_finalize_frame (auth : String) (scheme? : Option String)
    (hostname : String) (payload : CreateLinkRequest)
    (kent : Nat → Nat → Char) (tent : Nat → Char) (st : Store)
    (k u tok : String) :
    (existsKey st (rand_string 6 (kent 0)) = false →
      (generate_link (some auth) (some auth) scheme? hostname
          (some (some payload)) kent tent [] st).snd =
        finalizeStore (reserve st (rand_string 6 (kent 0)))
          (rand_string 6 (kent 0)) payload.url (rand_string 24 tent)) ∧
    (hget (finalizeStore st k u tok) k "url" = some (Val.vstr u) ∧
      hget (finalizeStore st k u tok) k "token" = some (Val.vstr tok) ∧
      hget (finalizeStore st k u tok) k "clicks" = some (Val.vint 0)) ∧
    (∀ f, f ≠ "url" → f ≠ "token" → f ≠ "clicks" →
      hget (finalizeStore st k u tok) k f = hget st k f) ∧
    (∀ k', k' ≠ k →
      lookupEntry (finalizeStore st k u tok) k' = lookupEntry st k') ∧
    (existsKey st k = true →
      ttlOf (finalizeStore st k u tok) k = ttlOf st k) ∧
    (ttlOf (finalizeStore (reserve st k) k u tok) k = some 2592000) ∧
    (existsKey st (rand_string 6 (kent 0)) = false →
      generate_link (some auth) (some auth) scheme? hostname
          (some (some payload)) kent tent
          [false, false, false, false, false, true] st =
        (HResult.err 500,
         hset (reserve st (rand_string 6 (kent 0))) (rand_string 6 (kent 0))
           "url" (Val.vstr payload.url)) ∧
      hget (hset (reserve st (rand_string 6 (kent 0))) (rand_string 6 (kent 0))
          "url" (Val.vstr payload.url)) (rand_string 6 (kent 0)) "token"
        = none) := by
  have hfex : ∀ (st2 : Store), existsKey (reserve st2 k) k = true := by
    intro st2
    unfold reserve
    rw [existsKey_expire]
    exact existsKey_hset_self st2 k "url" (Val.vstr "")
  refine ⟨?_, ⟨?_, ?_, ?_⟩, ?_, ?_, ?_, ?_, ?_⟩
  · intro h
    rw [generate_link_success auth scheme? hostname payload kent tent st h]
  · unfold finalizeStore
    rw [hget_hset_ne_field _ _ _ _ _ (by decide),
      hget_hset_ne_field _ _ _ _ _ (by decide), hget_hset_self]
  · unfold finalizeStore
    rw [hget_hset_ne_field _ _ _ _ _ (by decide), hget_hset_self]
  · unfold finalizeStore
    rw [hget_hset_self]
  · intro f h1 h2 h3
    unfold finalizeStore
    rw [hget_hset_ne_field _ _ _ _ _ h3, hget_hset_ne_field _ _ _ _ _ h2,
      hget_hset_ne_field _ _ _ _ _ h1]
  · intro k' hk
    unfold finalizeStore
    rw [lookupEntry_hset_ne _ _ _ _ _ hk, lookupEntry_hset_ne _ _ _ _ _ hk,
      lookupEntry_hset_ne _ _ _ _ _ hk]
  · intro hk
    unfold finalizeStore
    rw [ttlOf_hset_self _ _ _ _ (existsKey_hset_self _ _ _ _),
      ttlOf_hset_self _ _ _ _ (existsKey_hset_self _ _ _ _),
      ttlOf_hset_self _ _ _ _ hk]
  · unfold finalizeStore
    rw [ttlOf_hset_self _ _ _ _ (existsKey_hset_self _ _ _ _),
      ttlOf_hset_self _ _ _ _ (existsKey_hset_self _ _ _ _),
      ttlOf_hset_self _ _ _ _ (hfex st), ttlOf_reserve]
  · intro h
    constructor
    · simp [generate_link, popFault, gask_first_free_sched kent st [false, true] h]
    · rw [hget_hset_ne_field _ _ _ _ _ (by decide)]
      unfold reserve
      rw [hget_expire, hget_hset_ne_field _ _ _ _ _ (by decide)]
      exact hget_absent st _ "token" (existsKey_false_lookup st _ h)

/-- Witness for C8: on the empty store, a fault on the token write leaves the
request failed with 500 and the record holding the new url but no token. -/
theorem claim_C8_finalize_frame_witness :
    generate_link (some "s") (some "s") none "h"
        (some (some (CreateLinkRequest.mk "https://e.com")))
        (fun _ _ => 'a') (fun _ => 't')
        [false, false, false, false, false, true] [] =
      (HResult.err 500,
       hset (reserve [] (rand_string 6 (fun _ => 'a'))) (rand_string 6 (fun _ => 'a'))
         "url" (Val.vstr "https://e.com")) :=
  ((claim_C8_finalize_frame "s" none "h" (CreateLinkRequest.mk "https://e.com")
      (fun _ _ => 'a') (fun _ => 't') [] "k" "u" "t").2.2.2.2.2.2 rfl).1

/-- C9: a key in the reserved-but-unfinalized sub-state (url field present
and equal to the empty string, clicks not yet written) makes proxy_link
succeed rather than fail: it returns a temporary redirect whose target is the
empty string and increments the clicks field on the still-reserved record
(HINCRBY treats the absent field as 0, so it becomes 1) — the defined
redirect-to-empty outcome. -/
theorem claim_C9_reserved_redirect (st : Store) (k : String)
    (hu : hget st k "url" = some (Val.vstr ""))
    (hc : hget st k "clicks" = none) :
    proxy_link k [] st = (HResult.ok "", hset st k "clicks" (Val.vint 1)) ∧
    hget (proxy_link k [] st).snd k "url" = some (Val.vstr "") ∧
    hget (proxy_link k [] st).snd k "clicks" = some (Val.vint 1) := by
  have hstep := proxy_link_step_reserved st k "" hu hc
  refine ⟨hstep, ?_, ?_⟩
  · rw [hstep]
    show hget (hset st k "clicks" (Val.vint 1)) k "url" = some (Val.vstr "")
    rw [hget_hset_ne_field _ _ _ _ _ (by decide)]
    exact hu
  · rw [hstep]
    exact hget_hset_self st k "clicks" (Val.vint 1)

/-- Witness for C9: a concrete reserved record redirects to "" and its clicks
field appears as 1. -/
theorem claim_C9_reserved_redirect_witness :
    proxy_link "k1" [] [("k1", Entry.mk [("url", Val.vstr "")] (some 9))] =
      (HResult.ok "",
       hset [("k1", Entry.mk [("url", Val.vstr "")] (some 9))] "k1" "clicks"
         (Val.vint 1)) :=
  (claim_C9_reserved_redirect [("k1", Entry.mk [("url", Val.vstr "")] (some 9))]
    "k1" rfl rfl).1

/-- C10: a key whose record has no token field — in particular one in the
reserved-but-unfinalized sub-state — makes get_stats fail with 404 for every
supplied token value, with exactly the observable outcome of an absent key
(second conjunct), so a reserved key is indistinguishable from an absent one
through the stats interface and its clicks are never readable there. -/
theorem claim_C10_reserved_stats (st : Store) (k : String)
    (token? : Option String) (h : hget st k "token" = none) :
    get_stats k token? [] st = (HResult.err 404, st) ∧
    (∀ (st2 : Store) (k2 : String), lookupEntry st2 k2 = none →
      get_stats k2 token? [] st2 = (HResult.err 404, st2)) := by
  constructor
  · simp [get_stats, popFault, h, valAsString]
  · intro st2 k2 h2
    simp [get_stats, popFault, hget_absent st2 k2 "token" h2, valAsString]

/-- Witness for C10: stats on a concrete reserved record is 404 even with a
token supplied. -/
theorem claim_C10_reserved_stats_witness :
    get_stats "k1" (some "anything") []
        [("k1", Entry.mk [("url", Val.vstr "")] (some 9))] =
      (HResult.err 404, [("k1", Entry.mk [("url", Val.vstr "")] (some 9))]) :=
  (claim_C10_reserved_stats [("k1", Entry.mk [("url", Val.vstr "")] (some 9))]
    "k1" (some "anything") rfl).1

end ShortLinks
